import Mathlib

/-!
Verification development for the Clarity appointment-booking concierge.

The definitions below are a shallow embedding of the voice-call dialogue
core of the repository: the per-turn webhook handlers (`/voice`, `/gather`,
`/sms`), the in-memory retry scheduler (`scheduleRetry` / `cancelRetry`),
and the pattern tests those handlers run on recognized speech.  Two server
variants exist in the repository; they are embedded separately as
namespaces `P1` (the variant with the SMS webhook and retry scheduler) and
`SJS` (the variant under `backend/`, with the walk-in intent branch).

JavaScript regular-expression tests used by the handlers are embedded as
executable matchers over `List Char` with JS `\b` word-boundary semantics
(word characters are ASCII alphanumerics and the underscore).
-/

namespace Clarity

/-- JS `\w`: ASCII letters, digits, underscore. -/
def isWordChar (c : Char) : Bool := c.isAlphanum || c == '_'

/-- JS `\s` (the ASCII part, which is all these handlers meet). -/
def jsWs (c : Char) : Bool :=
  c == ' ' || c == '\t' || c == '\n' || c == '\r' || c == '\x0b' || c == '\x0c'

/-- `String.prototype.trim()`. -/
def trimChars (l : List Char) : List Char :=
  ((l.dropWhile jsWs).reverse.dropWhile jsWs).reverse

def trimStr (s : String) : String := ⟨trimChars s.data⟩

/-- `String.prototype.toLowerCase()` (ASCII range). -/
def lowerStr (s : String) : String := ⟨s.data.map Char.toLower⟩

/-- Match the literal `w` at the head of `cs`; return the remainder. -/
def litAt (w : String) (cs : List Char) : Option (List Char) :=
  if w.data.isPrefixOf cs then some (cs.drop w.data.length) else none

/-- JS `\b` after a consumed character of wordness `lastWord`:
the boundary holds iff the wordness changes (end of input counts as
non-word). -/
def bAfter (lastWord : Bool) (cs : List Char) : Bool :=
  lastWord != (match cs with | c :: _ => isWordChar c | [] => false)

/-- A plain phrase alternative of a `\b(..|..)\b` regex, matched at the
current position (the phrase starts and ends with word characters). -/
def phraseAt (w : String) (cs : List Char) : Bool :=
  match litAt w cs with
  | some r => bAfter true r
  | none => false

/-- Scan the input for a position where `p` matches and the position is
preceded by a non-word character (JS `\b` before a word character). -/
def scanPos (p : List Char → Bool) : Bool → List Char → Bool
  | _, [] => false
  | prevW, c :: rest => (!prevW && p (c :: rest)) || scanPos p (isWordChar c) rest

def containsPat (p : List Char → Bool) (s : String) : Bool :=
  scanPos p false s.data

/-- `re.test(s)` for a word/phrase alternation `\b(w₁|w₂|…)\b`. -/
def wordsTest (ws : List String) (s : String) : Bool :=
  ws.any (fun w => containsPat (phraseAt w) s)

/-! ### The numeric time pattern `\b\d{1,2}(:\d{2})?\s?(am|pm)?\b` -/

/-- After the optional whitespace of the numeric time pattern: optional
`am`/`pm`, then `\b`. -/
def numAfterWs (lastWord : Bool) (cs : List Char) : Bool :=
  bAfter lastWord cs
  || (match litAt "am" cs with | some r => bAfter true r | none => false)
  || (match litAt "pm" cs with | some r => bAfter true r | none => false)

/-- After the digits (and optional `:dd`) of the numeric time pattern:
optional single `\s`, then the rest. -/
def numAfterDigits (cs : List Char) : Bool :=
  numAfterWs true cs
  || (match cs with
      | c :: r => if jsWs c then numAfterWs false r else false
      | [] => false)

/-- After the leading digits: optional `:\d{2}`, then the rest. -/
def numAfterD (cs : List Char) : Bool :=
  numAfterDigits cs
  || (match cs with
      | ':' :: d1 :: d2 :: r => if d1.isDigit && d2.isDigit then numAfterDigits r else false
      | _ => false)

/-- The whole numeric time pattern matched at the current position:
one or two digits, then the optional parts. -/
def numAt (cs : List Char) : Bool :=
  match cs with
  | a :: rest =>
    if a.isDigit then
      numAfterD rest
      || (match rest with
          | b :: r2 => if b.isDigit then numAfterD r2 else false
          | [] => false)
    else false
  | [] => false

/-- `/\b\d{1,2}(:\d{2})?\s?(am|pm)?\b/.test(s)`. -/
def numTest (s : String) : Bool := containsPat numAt s

/-! ### Flexible-whitespace phrases -/

/-- `walk ?in` (one optional literal space) and `walk[-\s]?in`
(one optional `-` or whitespace), selected by `dash`. -/
def walkInAt (dash : Bool) (cs : List Char) : Bool :=
  match litAt "walk" cs with
  | some r =>
    (match litAt "in" r with
     | some r2 => bAfter true r2
     | none =>
       match r with
       | c :: r3 =>
         if (if dash then (c == '-' || jsWs c) else c == ' ') then
           match litAt "in" r3 with
           | some r4 => bAfter true r4
           | none => false
         else false
       | [] => false)
  | none => false

/-- `come\s+any\s*time` followed by `\b`. -/
def comeAnyTimeAt (cs : List Char) : Bool :=
  match litAt "come" cs with
  | some r =>
    let r1 := r.dropWhile jsWs
    if r1.length < r.length then
      match litAt "any" r1 with
      | some r2 =>
        (match litAt "time" (r2.dropWhile jsWs) with
         | some r3 => bAfter true r3
         | none => false)
      | none => false
    else false
  | none => false

/-- `call\s*again` / `call\s*back` followed by `\b`. -/
def callThenAt (w : String) (cs : List Char) : Bool :=
  match litAt "call" cs with
  | some r =>
    (match litAt w (r.dropWhile jsWs) with
     | some r2 => bAfter true r2
     | none => false)
  | none => false

/-! ### Shared data model -/

/-- `MAX_CALL_MS = 3 * 60 * 1000`. -/
def MAX_CALL_MS : Nat := 3 * 60 * 1000
/-- `MAX_HOLD_MS = 90 * 1000`. -/
def MAX_HOLD_MS : Nat := 90 * 1000
/-- `DEFAULT_RETRY_MS = 15 * 60 * 1000`. -/
def DEFAULT_RETRY_MS : Nat := 15 * 60 * 1000
/-- `SHORT_WAIT_MS = 5 * 60 * 1000`. -/
def SHORT_WAIT_MS : Nat := 5 * 60 * 1000

def BRAND_NAME : String := "Clarity Health Concierge"
def BRAND_SLOGAN : String := "AI appointment assistant"

/-- The closed intent set of the speech classifier. -/
inductive Intent where
  | yes | no | time | hold | walkin | other
deriving DecidableEq

/-- The `userRequest` snapshot stored in a voice session.  Absent string
fields are embedded as `""` (which is falsy in JS, like `undefined`). -/
structure UserRequest where
  name : String
  reason : String
  preferredTimes : List String
  clinicName : String
  callback : String
  clinicPhone : String
deriving DecidableEq

structure TranscriptEntry where
  speaker : String
  text : String
deriving DecidableEq

/-- Outward side effects a webhook turn performs besides its TwiML
response: best-effort SMS sends, arming a retry timer, placing a call. -/
inductive Effect where
  | sms (dest : String) (body : String)
  | armRetry (identity : String) (delayMs : Nat)
  | placeCall (dest : String)
deriving DecidableEq

/-- The webhook response: lines spoken, whether the call is hung up,
and the side effects performed. -/
structure Resp where
  say : List String
  hangup : Bool
  effects : List Effect
deriving DecidableEq

/-- JS truthiness of an optional numeric timestamp (`0` is falsy). -/
def jsTruthyN : Option Nat → Bool
  | some n => n != 0
  | none => false

/-- JS truthiness of `session.confirmed?.time`
(`confirmed` null, or an empty time string, is falsy). -/
def confirmedTruthy : Option String → Bool
  | some t => t != ""
  | none => false

/-- A parsed date as the model sees the result of `chrono.parseDate`:
only the components the display format reads. -/
structure ChronoDate where
  weekday : Nat
  month : Nat
  day : Nat
  hour : Nat
  minute : Nat
deriving DecidableEq

def weekdayLong : Nat → String
  | 0 => "Sunday" | 1 => "Monday" | 2 => "Tuesday" | 3 => "Wednesday"
  | 4 => "Thursday" | 5 => "Friday" | 6 => "Saturday" | _ => "Sunday"

def monthShort : Nat → String
  | 1 => "Jan" | 2 => "Feb" | 3 => "Mar" | 4 => "Apr" | 5 => "May" | 6 => "Jun"
  | 7 => "Jul" | 8 => "Aug" | 9 => "Sep" | 10 => "Oct" | 11 => "Nov" | 12 => "Dec"
  | _ => "Jan"

def pad2 (n : Nat) : String := if n < 10 then "0" ++ toString n else toString n

/-- Modelled from the runtime: the en-US locale rendering
`toLocaleString` with long weekday, short month, numeric day, numeric
12-hour time and 2-digit minutes, which both servers use to display a
parsed time. -/
def formatLocale (d : ChronoDate) : String :=
  let h12 := if d.hour % 12 = 0 then 12 else d.hour % 12
  let ap := if d.hour < 12 then "AM" else "PM"
  let wd := weekdayLong d.weekday
  let mo := monthShort d.month
  let dy := toString d.day
  let mi := pad2 d.minute
  s!"{wd}, {mo} {dy}, {h12}:{mi} {ap}"

end Clarity

namespace Clarity.P1

/-! Embedding of the first server variant (the file with the SMS webhook
and the retry scheduler). -/

/-- A voice `CallSession` as created by `startClinicCall`. -/
structure Session where
  userRequest : UserRequest
  transcript : List TranscriptEntry
  status : String
  confirmed : Option String
  startedAt : Nat
  onHoldSince : Option Nat
deriving DecidableEq

/-- The fresh session record created by `startClinicCall`. -/
def mkSession (req : UserRequest) (now : Nat) : Session :=
  { userRequest := req, transcript := [], status := "in_progress",
    confirmed := none, startedAt := now, onHoldSince := none }

/-- `/\b(please hold|hold on|one moment|just a moment|put you on hold|one sec|minute)\b/i`. -/
def holdRe (u : String) : Bool :=
  wordsTest ["please hold", "hold on", "one moment", "just a moment",
             "put you on hold", "one sec", "minute"] u

/-- `/\b(yes|yeah|yep|works|okay|ok|sure|that[’\x27]s fine|perfect|sounds good)\b/i`. -/
def yesRe (u : String) : Bool :=
  wordsTest ["yes", "yeah", "yep", "works", "okay", "ok", "sure",
             "that’s fine", "that\u0027s fine", "perfect", "sounds good"] u

/-- `/\b(no|nope|not available|can[’\x27]t|can’t|unavailable)\b/i`. -/
def noRe (u : String) : Bool :=
  wordsTest ["no", "nope", "not available", "can’t", "can\u0027t", "unavailable"] u

/-- The three time-cue patterns of the intent chain. -/
def timeRe (u : String) : Bool :=
  wordsTest ["mon", "tue", "wed", "thu", "fri", "sat", "sun",
             "today", "tomorrow", "next"] u
  || numTest u
  || wordsTest ["morning", "afternoon", "evening", "noon", "midday"] u

/-- The `let intent` chain of `/gather` (this variant has no walk-in
intent value; walk-in phrasing is a separate check further down). -/
def classify (u : String) : Intent :=
  if yesRe u then .yes
  else if noRe u then .no
  else if timeRe u then .time
  else .other

/-- `/\b(come\s+any\s*time|walk[-\s]?in|anytime today|free anytime)\b/i`. -/
def walkinRe (u : String) : Bool :=
  containsPat comeAnyTimeAt u
  || containsPat (walkInAt true) u
  || wordsTest ["anytime today", "free anytime"] u

def wrapLine : String := "I have to wrap here. We\u0027ll follow up by text. Thank you!"
def capSmsBody : String :=
  "Clinic line busy/long. Reply RETRY for another attempt, WAIT 5 / WAIT 15 to schedule, or CANCEL."
def holdTimeoutLine : String := "I’ll follow up later. Thank you!"
def holdSmsBody : String :=
  "Clinic kept us on hold too long. Reply NOW/RETRY to call again, or WAIT 5 / WAIT 15 / CANCEL."

/-- `if(speech) session.transcript.push with speaker rx`. -/
def pushRx (s : Session) (speech : String) : Session :=
  if speech ≠ "" then { s with transcript := s.transcript ++ [⟨"rx", speech⟩] } else s

/-- `if(!session.onHoldSince) session.onHoldSince = Date.now()`. -/
def setHold (s : Session) (now : Nat) : Session :=
  if jsTruthyN s.onHoldSince then s else { s with onHoldSince := some now }

/-- `else if(session.onHoldSince){ session.onHoldSince = null }`. -/
def clearHold (s : Session) : Session :=
  if jsTruthyN s.onHoldSince then { s with onHoldSince := none } else s

/-- One `/gather` turn.  `raw` is `req.body.SpeechResult`, `now` is
`Date.now()`, `parse` stands for `chrono.parseDate` at the reference
time, `ai` for the GPT fallback (`none` = the call threw), and `smsOk`
for whether an awaited `client.messages.create` succeeds (its failure is
swallowed by the surrounding `try`, skipping what follows it in the
block). -/
def gatherStep (s : Session) (raw : String) (now : Nat)
    (parse : String → Nat → Option ChronoDate) (ai : Option String) (smsOk : Bool) :
    Session × Resp :=
  let speech := trimStr raw
  let cb := s.userRequest.callback
  let base := if s.startedAt = 0 then now else s.startedAt
  if MAX_CALL_MS < now - base then
    (s, ⟨[wrapLine], true, if cb ≠ "" then [.sms cb capSmsBody] else []⟩)
  else
    let s1 := pushRx s speech
    let lower := lowerStr speech
    if holdRe lower then
      let s2 := setHold s1 now
      if MAX_HOLD_MS < now - s2.onHoldSince.getD 0 then
        (s2, ⟨[holdTimeoutLine], true,
              if cb ≠ "" then
                (if smsOk then [.sms cb holdSmsBody, .armRetry cb DEFAULT_RETRY_MS]
                 else [.sms cb holdSmsBody])
              else []⟩)
      else
        (s2, ⟨["Sure, I can hold.", "I’m still here."], false, []⟩)
    else
      let s2 := clearHold s1
      let intent := classify lower
      if intent = Intent.time then
        let cleanTime := match parse speech now with
                         | some d => formatLocale d
                         | none => speech
        let nm := s.userRequest.name
        let confirmLine :=
          s!"Great, I have you down for {cleanTime} for patient {nm}. Can you confirm? Also, is there anything {nm} needs to bring?"
        ({ s2 with confirmed := some cleanTime,
                   transcript := s2.transcript ++ [⟨"ai", confirmLine⟩] },
         ⟨[confirmLine], false, []⟩)
      else if intent = Intent.yes ∧ confirmedTruthy s.confirmed then
        let nm := s.userRequest.name
        let thanks :=
          s!"Perfect, thank you very much. Please note the patient name {nm}. Have a great day."
        let ct := s.confirmed.getD ""
        let cn := s.userRequest.clinicName
        ({ s2 with status := "confirmed", transcript := s2.transcript ++ [⟨"ai", thanks⟩] },
         ⟨[thanks], true, if cb ≠ "" then [.sms cb s!"✅ Confirmed: {ct} at {cn}."] else []⟩)
      else if intent = Intent.no then
        let retry := "No problem. Could you share another available time—morning or afternoon works too?"
        ({ s2 with transcript := s2.transcript ++ [⟨"ai", retry⟩] }, ⟨[retry], false, []⟩)
      else if walkinRe lower then
        let nm := s.userRequest.name
        let askDocs := s!"Thanks! To confirm, walk-in is okay. Is there anything {nm} should bring?"
        ({ s2 with transcript := s2.transcript ++ [⟨"ai", askDocs⟩] }, ⟨[askDocs], false, []⟩)
      else
        let reply := ai.getD "I didn\u0027t catch that. Could you share an available day and time?"
        ({ s2 with transcript := s2.transcript ++ [⟨"ai", reply⟩] },
         ⟨[reply, "I\u0027m listening."], false, []⟩)

/-- The `/voice` (call-answered) handler: a missing session gets the
graceful context-lost line; otherwise the greeting is spoken and pushed
onto the transcript. -/
def voiceStep (session : Session) : Session × Resp :=
  let nm := session.userRequest.name
  let nameToSay := if nm ≠ "" then nm else "the patient"
  let reasonPart :=
    if session.userRequest.reason ≠ "" then "Reason: " ++ session.userRequest.reason ++ ". " else ""
  let first0 := match session.userRequest.preferredTimes with
                | t :: _ => t
                | [] => ""
  let avail := if first0 ≠ "" then first0 else "this week"
  let bn := BRAND_NAME
  let bs := BRAND_SLOGAN
  let firstLine :=
    s!"Hi, this is {bn} — {bs}. I\u0027m calling to book an appointment for {nameToSay}. {reasonPart}Do you have availability {avail}?"
  ({ session with transcript := session.transcript ++ [⟨"ai", firstLine⟩] },
   ⟨[firstLine, "I can wait for your available times."], false, []⟩)

def voice (store : Option Session) : Option Session × Resp :=
  match store with
  | none => (none, ⟨["I lost the call context. Goodbye."], true, []⟩)
  | some session =>
    let (s1, r) := voiceStep session
    (some s1, r)

/-! ### The retry scheduler (`pendingRetries` map plus `setTimeout` timers)

A `setTimeout` handle is embedded as a `Timer` with a fresh id and an
`active` flag; `clearTimeout` flips the flag off, so a cleared timer can
never fire.  The `pendingRetries` map is an association list from the
patient number to the id of the armed timer. -/

structure Timer where
  id : Nat
  owner : String
  delayMs : Nat
  active : Bool
deriving DecidableEq

structure SchedState where
  timers : List Timer
  pending : List (String × Nat)
  nextId : Nat
deriving DecidableEq

def SchedState.empty : SchedState := ⟨[], [], 0⟩

/-- `pendingRetries.get(k)`. -/
def lookupP : List (String × Nat) → String → Option Nat
  | [], _ => none
  | kv :: rest, k => if kv.1 = k then some kv.2 else lookupP rest k

/-- `pendingRetries.delete(k)`. -/
def eraseP : List (String × Nat) → String → List (String × Nat)
  | [], _ => []
  | kv :: rest, k => if kv.1 = k then eraseP rest k else kv :: eraseP rest k

/-- `clearTimeout(i)`: deactivate every timer with that id. -/
def deactivate (ts : List Timer) (i : Nat) : List Timer :=
  ts.map (fun t => if t.id = i then { t with active := false } else t)

/-- `scheduleRetry(patientNumber, details, delayMs)`: clear any existing
timer for the patient, arm a fresh one, record it in the map. -/
def scheduleRetry (st : SchedState) (patientNumber : String) (delayMs : Nat) : SchedState :=
  let ts := match lookupP st.pending patientNumber with
            | some i => deactivate st.timers i
            | none => st.timers
  { timers := ts ++ [⟨st.nextId, patientNumber, delayMs, true⟩],
    pending := eraseP st.pending patientNumber ++ [(patientNumber, st.nextId)],
    nextId := st.nextId + 1 }

/-- `cancelRetry(patientNumber)`: clear and remove if present, report
whether one existed. -/
def cancelRetry (st : SchedState) (patientNumber : String) : SchedState × Bool :=
  match lookupP st.pending patientNumber with
  | some i =>
    ({ st with timers := deactivate st.timers i, pending := eraseP st.pending patientNumber }, true)
  | none => (st, false)

/-- An armed timer fires: its callback first does
`pendingRetries.delete(patientNumber)`; the timer itself is consumed.
Firing an inactive (cleared) or unknown id is a no-op. -/
def fireTimer (st : SchedState) (i : Nat) : SchedState :=
  match st.timers.find? (fun t => t.id == i && t.active) with
  | some t => { st with timers := deactivate st.timers i, pending := eraseP st.pending t.owner }
  | none => st

/-- Whether the timer with id `i` could still fire. -/
def canFire (st : SchedState) (i : Nat) : Bool :=
  st.timers.any (fun t => t.id == i && t.active)

/-- The active timers owned by one patient number. -/
def ownerActive (st : SchedState) (o : String) : List Timer :=
  st.timers.filter (fun t => t.owner == o && t.active)

/-- Scheduler states reachable from the empty map by any interleaving of
scheduling, cancelling and timer firing. -/
inductive SchedReach : SchedState → Prop
  | empty : SchedReach SchedState.empty
  | schedule (p : String) (d : Nat) {st} : SchedReach st → SchedReach (scheduleRetry st p d)
  | cancel (p : String) {st} : SchedReach st → SchedReach (cancelRetry st p).1
  | fire (i : Nat) {st} : SchedReach st → SchedReach (fireTimer st i)

/-! ### The `/sms` webhook -/

/-- What `lastCallByPatient` remembers for a patient. -/
structure CallDetails where
  dest : String
  name : String
  reason : String
  preferredTimes : List String
  clinicName : String
  callback : String
deriving DecidableEq

/-- `/\b(stop|end|unsubscribe|quit|cancel)\b/` on the lowercased body. -/
def optoutRe (u : String) : Bool :=
  wordsTest ["stop", "end", "unsubscribe", "quit", "cancel"] u

def startRe (u : String) : Bool := wordsTest ["start"] u
def helpRe (u : String) : Bool := wordsTest ["help"] u

/-- `/\b(retry|now|call\s*again|call\s*back)\b/`. -/
def retryRe (u : String) : Bool :=
  wordsTest ["retry", "now"] u
  || containsPat (callThenAt "again") u
  || containsPat (callThenAt "back") u

def optoutReply : String :=
  "You’re opted out and won’t receive more texts. Reply START to opt back in."

/-- One `/sms` turn: the scheduler state is threaded through, `lastCall`
is the `lastCallByPatient` entry of the patient, `placeOk` stands for whether
re-placing the call succeeds. -/
def smsStep (st : SchedState) (lastCall : Option CallDetails) (fromN bodyRaw : String)
    (placeOk : Bool) : SchedState × String × List Effect :=
  let body := trimStr bodyRaw
  let lower := lowerStr body
  if optoutRe lower then
    ((cancelRetry st fromN).1, optoutReply, [])
  else if startRe lower then
    (st, "You’re opted in. Reply HELP for info.", [])
  else if helpRe lower then
    let bn := BRAND_NAME
    (st, s!"{bn}: Msg&data rates may apply. Reply STOP to opt out.", [])
  else if retryRe lower then
    match lastCall with
    | some d =>
      if d.dest ≠ "" then
        let st1 := (cancelRetry st fromN).1
        if placeOk then
          let cn := d.clinicName
          (st1, s!"Calling {cn} again now. I’ll text the result.", [.placeCall d.dest])
        else
          (st1, "Couldn’t place the call just now. Reply RETRY again in a moment, or WAIT 5 / WAIT 15.", [])
      else (st, "I don’t have a clinic on file to call back. Start a new request first.", [])
    | none => (st, "I don’t have a clinic on file to call back. Start a new request first.", [])
  else
    (st, "Thanks! Please use our website chat to start a request.", [])

end Clarity.P1

namespace Clarity.SJS

/-! Embedding of the server variant under `backend/` (the one with the
walk-in intent branch). -/

/-- Its voice session record (it carries an extra, otherwise unused,
`turns` counter initialised to 0). -/
structure Session where
  userRequest : UserRequest
  transcript : List TranscriptEntry
  status : String
  confirmed : Option String
  turns : Nat
  startedAt : Nat
  onHoldSince : Option Nat
deriving DecidableEq

/-- The fresh session record created by `startClinicCall`. -/
def mkSession (req : UserRequest) (now : Nat) : Session :=
  { userRequest := req, transcript := [], status := "in_progress",
    confirmed := none, turns := 0, startedAt := now, onHoldSince := none }

/-- `/\b(please hold|hold on|one moment|just a moment|put you on hold)\b/i`. -/
def holdRe (u : String) : Bool :=
  wordsTest ["please hold", "hold on", "one moment", "just a moment", "put you on hold"] u

/-- `/\b(yes|works|okay|ok|sure|confirmed)\b/i`. -/
def yesRe (u : String) : Bool :=
  wordsTest ["yes", "works", "okay", "ok", "sure", "confirmed"] u

/-- `/\b(no|unavailable|not available|can’t|cant)\b/i`. -/
def noRe (u : String) : Bool :=
  wordsTest ["no", "unavailable", "not available", "can’t", "cant"] u

/-- The word-cue alternation plus the numeric time pattern. -/
def timeRe (u : String) : Bool :=
  wordsTest ["mon", "tue", "wed", "thu", "fri", "sat", "sun", "today", "tomorrow",
             "next", "am", "pm", "morning", "afternoon", "evening"] u
  || numTest u

/-- `/\b(walk ?in|come any time|anytime|any time)\b/`. -/
def walkinRe (u : String) : Bool :=
  containsPat (walkInAt false) u
  || wordsTest ["come any time", "anytime", "any time"] u

/-- The `let intent` else-if chain of `/gather`: yes, then no, then
time, then walk-in, defaulting to other. -/
def classify (u : String) : Intent :=
  if yesRe u then .yes
  else if noRe u then .no
  else if timeRe u then .time
  else if walkinRe u then .walkin
  else .other

def walkinTimeNote : String := "Walk-in / come anytime - no appointment needed"

/-- `if(speech) s.transcript.push with speaker rx`. -/
def pushRx (s : Session) (speech : String) : Session :=
  if speech ≠ "" then { s with transcript := s.transcript ++ [⟨"rx", speech⟩] } else s

/-- `if(!s.onHoldSince) s.onHoldSince = Date.now()`. -/
def setHold (s : Session) (now : Nat) : Session :=
  if jsTruthyN s.onHoldSince then s else { s with onHoldSince := some now }

/-- `else if(s.onHoldSince) s.onHoldSince = null`. -/
def clearHold (s : Session) : Session :=
  if jsTruthyN s.onHoldSince then { s with onHoldSince := none } else s

/-- The walk-in confirmation text message body. -/
def walkinSmsBody (req : UserRequest) : String :=
  let cn := req.clinicName
  let cpShown := if req.clinicPhone ≠ "" then req.clinicPhone else "clinic"
  s!"✅ {cn} ({cpShown}) said you can come anytime - no appointment needed. Address: {cn}. Walk-in during their hours."

/-- One `/gather` turn of this variant.  `raw` is
`req.body.SpeechResult`; note the time branch hands the raw (untrimmed,
unlowered) text to `chrono.parseDate` and as the verbatim fallback. -/
def gatherStep (s : Session) (raw : String) (now : Nat)
    (parse : String → Nat → Option ChronoDate) (ai : Option String) :
    Session × Resp :=
  let speech := lowerStr (trimStr raw)
  let cb := s.userRequest.callback
  if MAX_CALL_MS < now - s.startedAt then
    (s, ⟨["I\u0027ll follow up by text. Thank you!"], true, []⟩)
  else
    let s1 := pushRx s speech
    if holdRe speech then
      let s2 := setHold s1 now
      if MAX_HOLD_MS < now - s2.onHoldSince.getD 0 then
        (s2, ⟨["I’ll follow up later. Thank you!"], true, []⟩)
      else
        (s2, ⟨["Sure, I can hold.", "I’m still here."], false, []⟩)
    else
      let s2 := clearHold s1
      let intent := classify speech
      if intent = Intent.walkin then
        let nm := s.userRequest.name
        let dest := if cb ≠ "" then cb else s.userRequest.clinicPhone
        ({ s2 with confirmed := some walkinTimeNote, status := "walk_in" },
         ⟨[s!"Thank you! I\u0027ve noted that {nm} can come anytime. Have a great day."], true,
          [.sms dest (walkinSmsBody s.userRequest)]⟩)
      else if intent = Intent.time then
        let clean := match parse raw now with
                     | some d => formatLocale d
                     | none => raw
        let nm := s.userRequest.name
        ({ s2 with confirmed := some clean },
         ⟨[s!"Great, I have {clean} for {nm}. Can you confirm?"], false, []⟩)
      else if intent = Intent.yes ∧ confirmedTruthy s.confirmed then
        let ct := s.confirmed.getD ""
        let cn := s.userRequest.clinicName
        ({ s2 with status := "confirmed" },
         ⟨["Perfect—thank you. Have a great day."], true, [.sms cb s!"✅ Confirmed: {ct} at {cn}."]⟩)
      else if intent = Intent.no then
        (s2, ⟨["No problem—do you have another time window, morning or afternoon works as well?"],
              false, []⟩)
      else
        let reply := ai.getD "Could you share a day and time that works?"
        (s2, ⟨[reply, "I\u0027m listening."], false, []⟩)

/-- The greeting spoken by `/voice` once a session is at hand. -/
def voiceStep (session : Session) : Session × Resp :=
  let nm := session.userRequest.name
  let reasonPart :=
    if session.userRequest.reason ≠ "" then "Reason: " ++ session.userRequest.reason ++ ". " else ""
  let first0 := match session.userRequest.preferredTimes with
                | t :: _ => t
                | [] => ""
  let avail := if first0 ≠ "" then first0 else "this week"
  let bn := BRAND_NAME
  let bs := BRAND_SLOGAN
  let firstLine :=
    s!"Hi, this is {bn} — {bs}. I\u0027m calling to book an appointment for {nm}. {reasonPart}Do you have availability {avail}?"
  ({ session with transcript := session.transcript ++ [⟨"ai", firstLine⟩] },
   ⟨[firstLine, "I can wait for your available times."], false, []⟩)

/-- The whole `/voice` handler of this variant: it reads
`session.userRequest.name` without first checking that the session
exists, so a missing session makes the handler throw instead of
producing a response. -/
def voice (store : Option Session) : Except String (Session × Resp) :=
  match store with
  | none => .error "TypeError: Cannot read properties of undefined (reading \u0027userRequest\u0027)"
  | some session => .ok (voiceStep session)

/-- Session states reachable through any sequence of webhook turns
(creation, the call-answered greeting, and speech-captured turns with
arbitrary parser and fallback behavior; the `/status` handler of this variant
never touches the session). -/
inductive Reachable : Session → Prop
  | init (req : UserRequest) (now : Nat) : Reachable (mkSession req now)
  | voice {s} : Reachable s → Reachable (voiceStep s).1
  | gather (raw : String) (now : Nat) (parse : String → Nat → Option ChronoDate)
      (ai : Option String) {s} : Reachable s → Reachable (gatherStep s raw now parse ai).1

end Clarity.SJS

namespace Clarity

/-! ### Concrete inputs used by the closed witness theorems -/

/-- A concrete booking request with a callback identity on file. -/
def reqA : UserRequest :=
  { name := "Jane Roe", reason := "checkup", preferredTimes := ["this week"],
    clinicName := "Acme Clinic", callback := "+15550001111", clinicPhone := "+15552223333" }

/-- The same request without a callback identity. -/
def reqNoCb : UserRequest := { reqA with callback := "" }

/-- A fresh `P1` session started at millisecond 1. -/
def sP : P1.Session := P1.mkSession reqA 1

/-- The same session after 5 ms on hold. -/
def sPHold : P1.Session := { sP with onHoldSince := some 5 }

/-- A fresh `SJS` session started at millisecond 1. -/
def sB : SJS.Session := SJS.mkSession reqA 1

/-- `sB` after the receptionist said "today" (a time-proposal turn). -/
def sB1 : SJS.Session := (SJS.gatherStep sB "today" 1000 (fun _ _ => none) none).1

/-- `sB1` after the receptionist said "yes" (the confirming turn). -/
def sB2 : SJS.Session := (SJS.gatherStep sB1 "yes" 2000 (fun _ _ => none) none).1

/-- A fresh `SJS` session for a request with no callback identity. -/
def sNoCb : SJS.Session := SJS.mkSession reqNoCb 1

/-- A scheduler state with one ticket armed for the patient. -/
def stW : P1.SchedState := P1.scheduleRetry P1.SchedState.empty "+15550001111" DEFAULT_RETRY_MS

/-- A parse oracle on which `chrono.parseDate` always fails. -/
def parseNone : String → Nat → Option ChronoDate := fun _ _ => none

/-- A parse oracle that resolves to Saturday, Oct 25, 10:30 AM. -/
def parseOct25 : String → Nat → Option ChronoDate := fun _ _ => some ⟨6, 10, 25, 10, 30⟩

end Clarity

namespace Clarity

/-! ### Projection helper lemmas -/

@[simp] theorem P1.pushRx_status (s : P1.Session) (u : String) :
    (P1.pushRx s u).status = s.status := by unfold P1.pushRx; split <;> rfl

@[simp] theorem P1.pushRx_confirmed (s : P1.Session) (u : String) :
    (P1.pushRx s u).confirmed = s.confirmed := by unfold P1.pushRx; split <;> rfl

@[simp] theorem P1.pushRx_onHoldSince (s : P1.Session) (u : String) :
    (P1.pushRx s u).onHoldSince = s.onHoldSince := by unfold P1.pushRx; split <;> rfl

@[simp] theorem P1.pushRx_userRequest (s : P1.Session) (u : String) :
    (P1.pushRx s u).userRequest = s.userRequest := by unfold P1.pushRx; split <;> rfl

@[simp] theorem P1.setHold_status (s : P1.Session) (n : Nat) :
    (P1.setHold s n).status = s.status := by unfold P1.setHold; split <;> rfl

@[simp] theorem P1.setHold_confirmed (s : P1.Session) (n : Nat) :
    (P1.setHold s n).confirmed = s.confirmed := by unfold P1.setHold; split <;> rfl

@[simp] theorem P1.clearHold_status (s : P1.Session) :
    (P1.clearHold s).status = s.status := by unfold P1.clearHold; split <;> rfl

@[simp] theorem P1.clearHold_confirmed (s : P1.Session) :
    (P1.clearHold s).confirmed = s.confirmed := by unfold P1.clearHold; split <;> rfl

@[simp] theorem SJS.pushRx_status_sjs (s : SJS.Session) (u : String) :
    (SJS.pushRx s u).status = s.status := by unfold SJS.pushRx; split <;> rfl

@[simp] theorem SJS.pushRx_confirmed_sjs (s : SJS.Session) (u : String) :
    (SJS.pushRx s u).confirmed = s.confirmed := by unfold SJS.pushRx; split <;> rfl

@[simp] theorem SJS.pushRx_onHoldSince_sjs (s : SJS.Session) (u : String) :
    (SJS.pushRx s u).onHoldSince = s.onHoldSince := by unfold SJS.pushRx; split <;> rfl

@[simp] theorem SJS.pushRx_userRequest_sjs (s : SJS.Session) (u : String) :
    (SJS.pushRx s u).userRequest = s.userRequest := by unfold SJS.pushRx; split <;> rfl

@[simp] theorem SJS.setHold_status_sjs (s : SJS.Session) (n : Nat) :
    (SJS.setHold s n).status = s.status := by unfold SJS.setHold; split <;> rfl

@[simp] theorem SJS.setHold_confirmed_sjs (s : SJS.Session) (n : Nat) :
    (SJS.setHold s n).confirmed = s.confirmed := by unfold SJS.setHold; split <;> rfl

@[simp] theorem SJS.clearHold_status_sjs (s : SJS.Session) :
    (SJS.clearHold s).status = s.status := by unfold SJS.clearHold; split <;> rfl

@[simp] theorem SJS.clearHold_confirmed_sjs (s : SJS.Session) :
    (SJS.clearHold s).confirmed = s.confirmed := by unfold SJS.clearHold; split <;> rfl

/-- Outcome shapes of one `SJS` gather turn, as far as `status` and
`confirmed` go: untouched, time proposal, walk-in, or confirmation. -/
theorem SJS.gather_cases (s : SJS.Session) (raw : String) (now : Nat)
    (parse : String → Nat → Option ChronoDate) (ai : Option String) :
    ((SJS.gatherStep s raw now parse ai).1.status = s.status ∧
     (SJS.gatherStep s raw now parse ai).1.confirmed = s.confirmed) ∨
    ((SJS.gatherStep s raw now parse ai).1.status = s.status ∧
     ∃ v, (SJS.gatherStep s raw now parse ai).1.confirmed = some v) ∨
    ((SJS.gatherStep s raw now parse ai).1.status = "walk_in" ∧
     (SJS.gatherStep s raw now parse ai).1.confirmed = some SJS.walkinTimeNote) ∨
    ((SJS.gatherStep s raw now parse ai).1.status = "confirmed" ∧
     (SJS.gatherStep s raw now parse ai).1.confirmed = s.confirmed ∧
     confirmedTruthy s.confirmed = true) := by
  simp only [SJS.gatherStep]
  split_ifs <;>
    first
      | (refine Or.inl ⟨?_, ?_⟩ <;> (simp; done))
      | (refine Or.inr (Or.inr (Or.inl ⟨?_, ?_⟩)) <;> rfl)
      | (refine Or.inr (Or.inl ⟨?_, _, rfl⟩); simp; done)
      | (rename_i hy
         refine Or.inr (Or.inr (Or.inr ⟨rfl, ?_, hy.2⟩))
         simp
         done)

end Clarity

namespace Clarity.P1

theorem lookupP_nil (k : String) : lookupP [] k = none := rfl

theorem lookupP_cons (kv : String × Nat) (l : List (String × Nat)) (k : String) :
    lookupP (kv :: l) k = if kv.1 = k then some kv.2 else lookupP l k := rfl

theorem eraseP_cons (kv : String × Nat) (l : List (String × Nat)) (k : String) :
    eraseP (kv :: l) k = if kv.1 = k then eraseP l k else kv :: eraseP l k := rfl

theorem lookupP_mem {p : List (String × Nat)} {k : String} {v : Nat}
    (h : lookupP p k = some v) : (k, v) ∈ p := by
  induction p with
  | nil => simp [lookupP_nil] at h
  | cons kv rest ih =>
    rw [lookupP_cons] at h
    split at h
    · rename_i he
      have hv := Option.some.inj h
      subst hv
      rw [← he]
      simp
    · exact List.mem_cons_of_mem _ (ih h)

theorem lookupP_erase_self (p : List (String × Nat)) (k : String) :
    lookupP (eraseP p k) k = none := by
  induction p with
  | nil => rfl
  | cons kv rest ih =>
    rw [eraseP_cons]
    split
    · exact ih
    · rename_i hne
      rw [lookupP_cons, if_neg hne]
      exact ih

theorem lookupP_erase_ne (p : List (String × Nat)) {k k' : String} (h : k' ≠ k) :
    lookupP (eraseP p k) k' = lookupP p k' := by
  induction p with
  | nil => rfl
  | cons kv rest ih =>
    rw [eraseP_cons, lookupP_cons]
    split
    · rename_i he
      rw [if_neg (by rw [he]; exact fun hx => h hx.symm), ih]
    · rw [lookupP_cons]
      split
      · rfl
      · exact ih

theorem lookupP_append (xs ys : List (String × Nat)) (k : String) :
    lookupP (xs ++ ys) k =
      match lookupP xs k with
      | some v => some v
      | none => lookupP ys k := by
  induction xs with
  | nil => rfl
  | cons kv rest ih =>
    rw [List.cons_append, lookupP_cons, lookupP_cons]
    split
    · rfl
    · exact ih

theorem lookupP_sched_self (p : List (String × Nat)) (k : String) (j : Nat) :
    lookupP (eraseP p k ++ [(k, j)]) k = some j := by
  rw [lookupP_append, lookupP_erase_self]
  rw [lookupP_cons]
  simp

theorem lookupP_sched_ne (p : List (String × Nat)) {k k' : String} (j : Nat) (h : k' ≠ k) :
    lookupP (eraseP p k ++ [(k, j)]) k' = lookupP p k' := by
  rw [lookupP_append, lookupP_erase_ne p h]
  cases hv : lookupP p k' with
  | some v => rfl
  | none =>
    rw [lookupP_cons, if_neg (fun hx => h hx.symm)]
    rfl

theorem mem_eraseP {kv : String × Nat} {p : List (String × Nat)} {k : String}
    (h : kv ∈ eraseP p k) : kv ∈ p := by
  induction p with
  | nil => simp [eraseP] at h
  | cons kv2 rest ih =>
    rw [eraseP_cons] at h
    split at h
    · exact List.mem_cons_of_mem _ (ih h)
    · rcases List.mem_cons.mp h with h1 | h2
      · exact h1 ▸ List.mem_cons_self _ _
      · exact List.mem_cons_of_mem _ (ih h2)

theorem deactivate_map_id (ts : List Timer) (i : Nat) :
    (deactivate ts i).map Timer.id = ts.map Timer.id := by
  induction ts with
  | nil => rfl
  | cons t rest ih =>
    unfold deactivate at ih ⊢
    simp only [List.map_cons]
    rw [ih]
    split <;> rfl

theorem mem_deactivate_fields {t' : Timer} {ts : List Timer} {i : Nat}
    (h : t' ∈ deactivate ts i) :
    ∃ t ∈ ts, t'.id = t.id ∧ t'.owner = t.owner ∧
      (t'.active = true → (t.active = true ∧ t.id ≠ i)) := by
  obtain ⟨t, htmem, ht⟩ := List.mem_map.mp h
  refine ⟨t, htmem, ?_⟩
  by_cases hc : t.id = i
  · rw [if_pos hc] at ht
    subst ht
    exact ⟨rfl, rfl, fun hx => by simp at hx⟩
  · rw [if_neg hc] at ht
    subst ht
    exact ⟨rfl, rfl, fun hx => ⟨hx, hc⟩⟩

theorem deactivate_id_inactive {t' : Timer} {ts : List Timer} {i : Nat}
    (h : t' ∈ deactivate ts i) (hid : t'.id = i) : t'.active = false := by
  obtain ⟨t, _, hidq, _, hact⟩ := mem_deactivate_fields h
  cases ha : t'.active
  · rfl
  · exact absurd hid (by have := (hact ha).2; rw [hidq]; exact this)

/-- The scheduler-state invariant maintained by every reachable state:
timer ids are fresh and distinct, and every active timer is exactly the
one the `pendingRetries` map records for its owner. -/
structure SchedInv (st : SchedState) : Prop where
  idsLt : ∀ t ∈ st.timers, t.id < st.nextId
  idsNodup : (st.timers.map Timer.id).Nodup
  activePending : ∀ t ∈ st.timers, t.active = true → lookupP st.pending t.owner = some t.id
  pendingLt : ∀ kv ∈ st.pending, kv.2 < st.nextId

theorem schedInv_empty : SchedInv SchedState.empty := by
  refine ⟨?_, ?_, ?_, ?_⟩
  · intro t ht; simp [SchedState.empty] at ht
  · simp [SchedState.empty]
  · intro t ht; simp [SchedState.empty] at ht
  · intro kv h; simp [SchedState.empty] at h

end Clarity.P1

namespace Clarity.P1

theorem schedInv_schedule {st : SchedState} (h : SchedInv st) (p : String) (d : Nat) :
    SchedInv (scheduleRetry st p d) := by
  unfold scheduleRetry
  cases hl : lookupP st.pending p with
  | some i =>
    refine ⟨?_, ?_, ?_, ?_⟩
    · intro t ht
      rcases List.mem_append.mp ht with hm | hm
      · obtain ⟨t0, ht0, hid, _, _⟩ := mem_deactivate_fields hm
        exact Nat.lt_succ_of_lt (hid ▸ h.idsLt t0 ht0)
      · simp only [List.mem_singleton] at hm
        subst hm
        exact Nat.lt_succ_self _
    · simp only [List.map_append, deactivate_map_id, List.map_singleton]
      rw [List.nodup_append]
      refine ⟨h.idsNodup, List.nodup_singleton _, ?_⟩
      intro a ha
      simp only [List.mem_singleton]
      obtain ⟨t0, ht0, rfl⟩ := List.mem_map.mp ha
      intro hq
      exact absurd (hq ▸ h.idsLt t0 ht0) (Nat.lt_irrefl _)
    · intro t ht hact
      rcases List.mem_append.mp ht with hm | hm
      · obtain ⟨t0, ht0, hid, how, himp⟩ := mem_deactivate_fields hm
        obtain ⟨ha0, hne⟩ := himp hact
        have hlk := h.activePending t0 ht0 ha0
        by_cases howp : t0.owner = p
        · rw [howp, hl] at hlk
          exact absurd (Option.some.inj hlk).symm hne
        · rw [how, lookupP_sched_ne st.pending st.nextId (how ▸ howp), hid]
          exact how ▸ hlk
      · simp only [List.mem_singleton] at hm
        subst hm
        exact lookupP_sched_self st.pending p st.nextId
    · intro kv hkv
      rcases List.mem_append.mp hkv with hm | hm
      · exact Nat.lt_succ_of_lt (h.pendingLt kv (mem_eraseP hm))
      · simp only [List.mem_singleton] at hm
        subst hm
        exact Nat.lt_succ_self _
  | none =>
    refine ⟨?_, ?_, ?_, ?_⟩
    · intro t ht
      rcases List.mem_append.mp ht with hm | hm
      · exact Nat.lt_succ_of_lt (h.idsLt t hm)
      · simp only [List.mem_singleton] at hm
        subst hm
        exact Nat.lt_succ_self _
    · simp only [List.map_append, List.map_singleton]
      rw [List.nodup_append]
      refine ⟨h.idsNodup, List.nodup_singleton _, ?_⟩
      intro a ha
      simp only [List.mem_singleton]
      obtain ⟨t0, ht0, rfl⟩ := List.mem_map.mp ha
      intro hq
      exact absurd (hq ▸ h.idsLt t0 ht0) (Nat.lt_irrefl _)
    · intro t ht hact
      rcases List.mem_append.mp ht with hm | hm
      · have hlk := h.activePending t hm hact
        by_cases howp : t.owner = p
        · rw [howp, hl] at hlk
          cases hlk
        · rw [lookupP_sched_ne st.pending st.nextId howp]
          exact hlk
      · simp only [List.mem_singleton] at hm
        subst hm
        exact lookupP_sched_self st.pending p st.nextId
    · intro kv hkv
      rcases List.mem_append.mp hkv with hm | hm
      · exact Nat.lt_succ_of_lt (h.pendingLt kv (mem_eraseP hm))
      · simp only [List.mem_singleton] at hm
        subst hm
        exact Nat.lt_succ_self _

theorem schedInv_cancel {st : SchedState} (h : SchedInv st) (p : String) :
    SchedInv (cancelRetry st p).1 := by
  unfold cancelRetry
  cases hl : lookupP st.pending p with
  | some i =>
    refine ⟨?_, ?_, ?_, ?_⟩
    · intro t ht
      obtain ⟨t0, ht0, hid, _, _⟩ := mem_deactivate_fields ht
      exact hid ▸ h.idsLt t0 ht0
    · simp only [deactivate_map_id]
      exact h.idsNodup
    · intro t ht hact
      obtain ⟨t0, ht0, hid, how, himp⟩ := mem_deactivate_fields ht
      obtain ⟨ha0, hne⟩ := himp hact
      have hlk := h.activePending t0 ht0 ha0
      by_cases howp : t0.owner = p
      · rw [howp, hl] at hlk
        exact absurd (Option.some.inj hlk).symm hne
      · rw [how, lookupP_erase_ne st.pending (how ▸ howp), hid]
        exact how ▸ hlk
    · intro kv hkv
      exact h.pendingLt kv (mem_eraseP hkv)
  | none => exact h

theorem schedInv_fire {st : SchedState} (h : SchedInv st) (i : Nat) :
    SchedInv (fireTimer st i) := by
  unfold fireTimer
  cases hf : st.timers.find? (fun t => t.id == i && t.active) with
  | some t0 =>
    have ht0mem := List.mem_of_find?_eq_some hf
    have ht0p := List.find?_some hf
    rw [Bool.and_eq_true, beq_iff_eq] at ht0p
    obtain ⟨hid0, hact0⟩ := ht0p
    refine ⟨?_, ?_, ?_, ?_⟩
    · intro t ht
      obtain ⟨t1, ht1, hid, _, _⟩ := mem_deactivate_fields ht
      exact hid ▸ h.idsLt t1 ht1
    · simp only [deactivate_map_id]
      exact h.idsNodup
    · intro t ht hact
      obtain ⟨t1, ht1, hid, how, himp⟩ := mem_deactivate_fields ht
      obtain ⟨ha1, hne⟩ := himp hact
      have hlk := h.activePending t1 ht1 ha1
      have hlk0 := h.activePending t0 ht0mem hact0
      by_cases howp : t1.owner = t0.owner
      · rw [howp, hlk0, hid0] at hlk
        exact absurd (Option.some.inj hlk).symm hne
      · rw [how, lookupP_erase_ne st.pending (how ▸ howp), hid]
        exact how ▸ hlk
    · intro kv hkv
      exact h.pendingLt kv (mem_eraseP hkv)
  | none => exact h

theorem schedInv_of_reach {st : SchedState} (h : SchedReach st) : SchedInv st := by
  induction h with
  | empty => exact schedInv_empty
  | schedule p d hr ih => exact schedInv_schedule ih p d
  | cancel p hr ih => exact schedInv_cancel ih p
  | fire i hr ih => exact schedInv_fire ih i

end Clarity.P1

namespace Clarity.P1

theorem length_le_one_of_nodup_const {l : List Nat} (hnd : l.Nodup) (c : Nat)
    (h : ∀ x ∈ l, x = c) : l.length ≤ 1 := by
  match l with
  | [] => simp
  | [a] => simp
  | a :: b :: r =>
    have ha := h a (by simp)
    have hb := h b (by simp)
    have : a ≠ b := by
      rw [List.nodup_cons] at hnd
      exact fun hx => hnd.1 (hx ▸ List.mem_cons_self _ _)
    exact absurd (ha.trans hb.symm) this

theorem ownerActive_le_one {st : SchedState} (h : SchedInv st) (o : String) :
    (ownerActive st o).length ≤ 1 := by
  cases hl : lookupP st.pending o with
  | none =>
    have : ownerActive st o = [] := by
      rw [ownerActive, List.filter_eq_nil]
      intro t ht hp
      rw [Bool.and_eq_true, beq_iff_eq] at hp
      have := h.activePending t ht hp.2
      rw [hp.1, hl] at this
      cases this
    simp [this]
  | some i =>
    have hnd : ((ownerActive st o).map Timer.id).Nodup :=
      List.Nodup.sublist (List.Sublist.map _ (List.filter_sublist _)) h.idsNodup
    have hlen : ((ownerActive st o).map Timer.id).length = (ownerActive st o).length :=
      List.length_map _ _
    rw [← hlen]
    refine length_le_one_of_nodup_const hnd i ?_
    intro x hx
    obtain ⟨t, ht, rfl⟩ := List.mem_map.mp hx
    have htf := List.mem_filter.mp ht
    have hp := htf.2
    rw [Bool.and_eq_true, beq_iff_eq] at hp
    have := h.activePending t htf.1 hp.2
    rw [hp.1, hl] at this
    exact (Option.some.inj this).symm

theorem ownerActive_cancel {st : SchedState} (h : SchedInv st) (o : String) :
    ownerActive (cancelRetry st o).1 o = [] := by
  unfold cancelRetry
  cases hl : lookupP st.pending o with
  | none =>
    rw [ownerActive, List.filter_eq_nil]
    intro t ht hp
    rw [Bool.and_eq_true, beq_iff_eq] at hp
    have := h.activePending t ht hp.2
    rw [hp.1, hl] at this
    cases this
  | some i =>
    rw [ownerActive, List.filter_eq_nil]
    intro t ht hp
    rw [Bool.and_eq_true, beq_iff_eq] at hp
    obtain ⟨t0, ht0, hid, how, himp⟩ := mem_deactivate_fields ht
    obtain ⟨ha0, hne⟩ := himp hp.2
    have := h.activePending t0 ht0 ha0
    rw [← how, hp.1, hl] at this
    exact hne (Option.some.inj this).symm

theorem canFire_schedule_old {st : SchedState} (h : SchedInv st) {o : String} {i : Nat}
    (hl : lookupP st.pending o = some i) (d : Nat) :
    canFire (scheduleRetry st o d) i = false := by
  have hi : i < st.nextId := h.pendingLt (o, i) (lookupP_mem hl)
  unfold canFire scheduleRetry
  rw [hl]
  rw [Bool.eq_false_iff]
  intro hany
  rw [List.any_eq_true] at hany
  obtain ⟨t, ht, hp⟩ := hany
  rw [Bool.and_eq_true, beq_iff_eq] at hp
  rcases List.mem_append.mp ht with hm | hm
  · exact absurd hp.2 (by rw [deactivate_id_inactive hm hp.1]; simp)
  · simp only [List.mem_singleton] at hm
    subst hm
    simp only at hp
    exact absurd (hp.1 ▸ hi) (Nat.lt_irrefl _)

theorem canFire_cancel_old {st : SchedState} {o : String} {i : Nat}
    (hl : lookupP st.pending o = some i) :
    canFire (cancelRetry st o).1 i = false := by
  unfold canFire cancelRetry
  rw [hl]
  rw [Bool.eq_false_iff]
  intro hany
  rw [List.any_eq_true] at hany
  obtain ⟨t, ht, hp⟩ := hany
  rw [Bool.and_eq_true, beq_iff_eq] at hp
  exact absurd hp.2 (by rw [deactivate_id_inactive ht hp.1]; simp)

theorem lookupP_cancel_self (st : SchedState) (o : String) :
    lookupP (cancelRetry st o).1.pending o = none := by
  unfold cancelRetry
  cases hl : lookupP st.pending o with
  | none => exact hl
  | some i => exact lookupP_erase_self st.pending o

end Clarity.P1

namespace Clarity

/-! ### The claims -/

/-- Claim C1, counterexample: a single time-proposal turn ("today") on a
fresh session yields a reachable state whose `confirmed` field is
non-null while `status` is still `in_progress`, refuting the claimed
iff between a non-null confirmed time and status `confirmed`. -/
theorem C1_counterexample :
    SJS.Reachable sB1 ∧ sB1.confirmed ≠ none ∧ sB1.status ≠ "confirmed" := by
  refine ⟨?_, by decide, by decide⟩
  exact SJS.Reachable.gather "today" 1000 (fun _ _ => none) none (SJS.Reachable.init reqA 1)

/-- Claim C1, amended: for every reachable session state, status
`confirmed` or `walk_in` implies the `confirmed` field is non-null; the
converse direction of the original claim fails (see the
counterexample). -/
theorem C1_status_implies_confirmed (s : SJS.Session) (hr : SJS.Reachable s) :
    (s.status = "confirmed" ∨ s.status = "walk_in") → s.confirmed ≠ none := by
  induction hr with
  | init req now => intro h; rcases h with h | h <;> simp [SJS.mkSession] at h
  | voice hr ih => exact fun h => ih h
  | gather raw now parse ai hr ih =>
    rcases SJS.gather_cases _ raw now parse ai with
      ⟨h1, h2⟩ | ⟨h1, v, h2⟩ | ⟨h1, h2⟩ | ⟨h1, h2, h3⟩
    · rw [h1, h2]; exact ih
    · rw [h2]; simp
    · rw [h2]; simp
    · rw [h2]
      intro _
      cases hv : (_ : SJS.Session).confirmed with
      | none => rw [hv] at h3; simp [confirmedTruthy] at h3
      | some t => simp [hv]

/-- Witness for the amended C1 at the concrete confirmed session. -/
theorem C1_status_implies_confirmed_witness :
    sB2.status = "confirmed" ∧ sB2.confirmed ≠ none :=
  ⟨by decide,
   C1_status_implies_confirmed sB2
     (SJS.Reachable.gather "yes" 2000 (fun _ _ => none) none
       (SJS.Reachable.gather "today" 1000 (fun _ _ => none) none (SJS.Reachable.init reqA 1)))
     (Or.inl (by decide))⟩

/-- Claim C2: when the (cap-unexpired) turn hears an utterance matching
a hold phrase, the handler takes the hold branch only — acknowledge and
re-listen, or hold-timeout hangup — leaving `status` and `confirmed`
untouched, whatever other intent words co-occur. -/
theorem C2_hold_branch_priority (s : P1.Session) (raw : String) (now : Nat)
    (parse : String → Nat → Option ChronoDate) (ai : Option String) (smsOk : Bool)
    (hh : P1.holdRe (lowerStr (trimStr raw)) = true)
    (hc : ¬ MAX_CALL_MS < now - (if s.startedAt = 0 then now else s.startedAt)) :
    ((P1.gatherStep s raw now parse ai smsOk).1.status = s.status ∧
     (P1.gatherStep s raw now parse ai smsOk).1.confirmed = s.confirmed) ∧
    (((P1.gatherStep s raw now parse ai smsOk).2.say = [P1.holdTimeoutLine] ∧
      (P1.gatherStep s raw now parse ai smsOk).2.hangup = true) ∨
     ((P1.gatherStep s raw now parse ai smsOk).2.say = ["Sure, I can hold.", "I’m still here."] ∧
      (P1.gatherStep s raw now parse ai smsOk).2.hangup = false)) := by
  simp only [P1.gatherStep, if_neg hc, hh, if_true]
  split_ifs <;>
    first
      | (refine ⟨⟨?_, ?_⟩, Or.inl ⟨rfl, rfl⟩⟩ <;> simp)
      | (refine ⟨⟨?_, ?_⟩, Or.inr ⟨rfl, rfl⟩⟩ <;> simp)

/-- Witness for C2: "Yes, one moment" carries both a hold phrase and an
affirmation word, and still takes the hold branch. -/
theorem C2_hold_branch_priority_witness :
    P1.holdRe (lowerStr (trimStr "Yes, one moment")) = true ∧
    P1.yesRe (lowerStr (trimStr "Yes, one moment")) = true ∧
    (((P1.gatherStep sP "Yes, one moment" 1000 parseNone none true).1.status = sP.status ∧
      (P1.gatherStep sP "Yes, one moment" 1000 parseNone none true).1.confirmed = sP.confirmed) ∧
     (((P1.gatherStep sP "Yes, one moment" 1000 parseNone none true).2.say =
         [P1.holdTimeoutLine] ∧
       (P1.gatherStep sP "Yes, one moment" 1000 parseNone none true).2.hangup = true) ∨
      ((P1.gatherStep sP "Yes, one moment" 1000 parseNone none true).2.say =
         ["Sure, I can hold.", "I’m still here."] ∧
       (P1.gatherStep sP "Yes, one moment" 1000 parseNone none true).2.hangup = false))) :=
  ⟨by decide, by decide,
   C2_hold_branch_priority sP "Yes, one moment" 1000 parseNone none true
     (by decide) (by decide)⟩

/-- Claim C3: once the 3-minute call ceiling is exceeded, the turn
returns the wrap-up line and hangs up with the session untouched — no
transcript append, no hold handling, no intent branch, no status change
and no confirmation notification, whatever the utterance says. -/
theorem C3_call_ceiling_preempts (s : P1.Session) (raw : String) (now : Nat)
    (parse : String → Nat → Option ChronoDate) (ai : Option String) (smsOk : Bool)
    (h0 : s.startedAt ≠ 0) (hc : MAX_CALL_MS < now - s.startedAt) :
    P1.gatherStep s raw now parse ai smsOk =
      (s, ⟨[P1.wrapLine], true,
           if s.userRequest.callback ≠ "" then
             [Effect.sms s.userRequest.callback P1.capSmsBody]
           else []⟩) := by
  simp only [P1.gatherStep, if_neg h0, if_pos hc]

/-- Witness for C3: a "yes" arriving 2 ms past the ceiling only wraps
up; the session (and so its status) is unchanged. -/
theorem C3_call_ceiling_preempts_witness :
    sP.startedAt ≠ 0 ∧ MAX_CALL_MS < 180002 - sP.startedAt ∧
    P1.gatherStep sP "yes" 180002 parseNone none true =
      (sP, ⟨[P1.wrapLine], true,
            if sP.userRequest.callback ≠ "" then
              [Effect.sms sP.userRequest.callback P1.capSmsBody]
            else []⟩) :=
  ⟨by decide, by decide,
   C3_call_ceiling_preempts sP "yes" 180002 parseNone none true (by decide) (by decide)⟩

/-- Claim C4, counterexample: "come anytime today" carries walk-in
phrasing yet classifies as `time`, not `walkin`, because the time-cue
check precedes the walk-in check in the classifier chain. -/
theorem C4_counterexample :
    SJS.walkinRe (lowerStr (trimStr "come anytime today")) = true ∧
    SJS.timeRe (lowerStr (trimStr "come anytime today")) = true ∧
    SJS.classify (lowerStr (trimStr "come anytime today")) = Intent.time ∧
    Intent.time ≠ Intent.walkin := by decide

/-- Claim C4, amended: the classifier checks yes words first, then no
words, then time cues, then walk-in phrasing, yielding `other` only
when none match; so walk-in phrasing co-occurring with a time cue
classifies as `time`. -/
theorem C4_amended_intent_order (u : String)
    (hw : SJS.walkinRe u = true) (ht : SJS.timeRe u = true)
    (hy : SJS.yesRe u = false) (hn : SJS.noRe u = false) :
    (SJS.classify u = Intent.time ∧ SJS.classify u ≠ Intent.walkin) ∧
    (∀ v, SJS.classify v = Intent.other →
      SJS.yesRe v = false ∧ SJS.noRe v = false ∧
      SJS.timeRe v = false ∧ SJS.walkinRe v = false) := by
  constructor
  · simp [SJS.classify, hy, hn, ht]
  · intro v hv
    unfold SJS.classify at hv
    split_ifs at hv <;> simp_all

/-- Witness for the amended C4 at "come anytime today". -/
theorem C4_amended_intent_order_witness :
    SJS.classify (lowerStr (trimStr "come anytime today")) = Intent.time ∧
    SJS.classify (lowerStr (trimStr "come anytime today")) ≠ Intent.walkin :=
  (C4_amended_intent_order (lowerStr (trimStr "come anytime today"))
    (by decide) (by decide) (by decide) (by decide)).1

/-- Claim C5: on a missing session the `P1` call-answered handler
answers with the graceful context-lost line and a clean hangup, but the
`backend` variant of `/voice` dereferences the absent session and
throws instead of responding. -/
theorem C5_missing_session_divergence :
    P1.voice none = (none, ⟨["I lost the call context. Goodbye."], true, []⟩) ∧
    SJS.voice none =
      Except.error
        "TypeError: Cannot read properties of undefined (reading 'userRequest')" :=
  ⟨rfl, rfl⟩

/-- Claim C6: a turn that still hears a hold phrase with the hold
ceiling already exceeded ends the call with the follow-up line; with a
callback identity on file (and the notification send succeeding) it
sends the hold-timeout SMS and arms a retry at `DEFAULT_RETRY_MS`
(15 minutes); with no callback identity it sends nothing and arms
nothing. -/
theorem C6_hold_timeout_retry (s : P1.Session) (raw : String) (now h : Nat)
    (parse : String → Nat → Option ChronoDate) (ai : Option String) (smsOk : Bool)
    (hh : P1.holdRe (lowerStr (trimStr raw)) = true)
    (hc : ¬ MAX_CALL_MS < now - (if s.startedAt = 0 then now else s.startedAt))
    (hoh : s.onHoldSince = some h) (h0 : h ≠ 0)
    (hto : MAX_HOLD_MS < now - h) :
    (P1.gatherStep s raw now parse ai smsOk).2 =
      ⟨[P1.holdTimeoutLine], true,
       if s.userRequest.callback ≠ "" then
         (if smsOk then
            [Effect.sms s.userRequest.callback P1.holdSmsBody,
             Effect.armRetry s.userRequest.callback DEFAULT_RETRY_MS]
          else [Effect.sms s.userRequest.callback P1.holdSmsBody])
       else []⟩ := by
  have htr : jsTruthyN (some h) = true := by simp [jsTruthyN, h0]
  simp only [P1.gatherStep, if_neg hc, hh, if_true,
             P1.setHold, P1.pushRx_onHoldSince, hoh, htr, Option.getD_some, if_pos hto]

/-- Witness for C6 with a callback identity (91 s on hold), showing the
SMS plus the armed 15-minute ticket. -/
theorem C6_hold_timeout_retry_witness :
    P1.holdRe (lowerStr (trimStr "please hold")) = true ∧
    sPHold.onHoldSince = some 5 ∧ MAX_HOLD_MS < 90006 - 5 ∧
    (P1.gatherStep sPHold "please hold" 90006 parseNone none true).2 =
      ⟨[P1.holdTimeoutLine], true,
       if sPHold.userRequest.callback ≠ "" then
         (if true then
            [Effect.sms sPHold.userRequest.callback P1.holdSmsBody,
             Effect.armRetry sPHold.userRequest.callback DEFAULT_RETRY_MS]
          else [Effect.sms sPHold.userRequest.callback P1.holdSmsBody])
       else []⟩ :=
  ⟨by decide, by decide, by decide,
   C6_hold_timeout_retry sPHold "please hold" 90006 5 parseNone none true
     (by decide) (by decide) (by decide) (by decide) (by decide)⟩

/-- Claim C7: scheduling over any reachable scheduler state leaves at
most one active ticket per identity, and a ticket replaced by a new
`scheduleRetry` for the same identity can never fire. -/
theorem C7_single_ticket_per_identity (st : P1.SchedState) (o : String) (d : Nat)
    (hr : P1.SchedReach st) :
    (∀ o2, (P1.ownerActive (P1.scheduleRetry st o d) o2).length ≤ 1) ∧
    (∀ i, P1.lookupP st.pending o = some i →
      P1.canFire (P1.scheduleRetry st o d) i = false) := by
  have hinv := P1.schedInv_of_reach hr
  constructor
  · intro o2
    exact P1.ownerActive_le_one (P1.schedInv_schedule hinv o d) o2
  · intro i hl
    exact P1.canFire_schedule_old hinv hl d

/-- Witness for C7: re-scheduling the armed patient kills timer 0. -/
theorem C7_single_ticket_per_identity_witness :
    P1.lookupP stW.pending "+15550001111" = some 0 ∧
    P1.canFire (P1.scheduleRetry stW "+15550001111" SHORT_WAIT_MS) 0 = false ∧
    (P1.ownerActive (P1.scheduleRetry stW "+15550001111" SHORT_WAIT_MS) "+15550001111").length
      ≤ 1 :=
  ⟨by decide,
   (C7_single_ticket_per_identity stW "+15550001111" SHORT_WAIT_MS
      (P1.SchedReach.schedule _ _ P1.SchedReach.empty)).2 0 (by decide),
   (C7_single_ticket_per_identity stW "+15550001111" SHORT_WAIT_MS
      (P1.SchedReach.schedule _ _ P1.SchedReach.empty)).1 "+15550001111"⟩

/-- Claim C8: in a time-intent turn the stored/spoken time is the
locale-formatted parse result when the parser succeeds at the reference
time, and the original utterance verbatim when it fails; either way the
turn keeps listening. -/
theorem C8_parse_fallback_verbatim (s : SJS.Session) (raw : String) (now : Nat)
    (parse : String → Nat → Option ChronoDate) (ai : Option String)
    (hc : ¬ MAX_CALL_MS < now - s.startedAt)
    (hh : SJS.holdRe (lowerStr (trimStr raw)) = false)
    (hy : SJS.yesRe (lowerStr (trimStr raw)) = false)
    (hn : SJS.noRe (lowerStr (trimStr raw)) = false)
    (ht : SJS.timeRe (lowerStr (trimStr raw)) = true) :
    (parse raw now = none → (SJS.gatherStep s raw now parse ai).1.confirmed = some raw) ∧
    (∀ d, parse raw now = some d →
      (SJS.gatherStep s raw now parse ai).1.confirmed = some (formatLocale d)) ∧
    (SJS.gatherStep s raw now parse ai).2.hangup = false := by
  have hcl : SJS.classify (lowerStr (trimStr raw)) = Intent.time := by
    simp [SJS.classify, hy, hn, ht]
  have hw : (Intent.time = Intent.walkin) = False := by simp
  have htt : (Intent.time = Intent.time) = True := by simp
  simp only [SJS.gatherStep, if_neg hc, hh, Bool.false_eq_true, if_false, hcl,
             hw, htt, if_true]
  refine ⟨?_, ?_, ?_⟩
  · intro hp; simp only [hp]
  · intro d hp; simp only [hp]
  · trivial

/-- Witness for C8: "10:30" verbatim on parse failure, the formatted
string on parse success. -/
theorem C8_parse_fallback_verbatim_witness :
    (SJS.gatherStep sB "10:30" 1000 parseNone none).1.confirmed = some "10:30" ∧
    (SJS.gatherStep sB "10:30" 1000 parseOct25 none).1.confirmed =
      some (formatLocale ⟨6, 10, 25, 10, 30⟩) :=
  ⟨(C8_parse_fallback_verbatim sB "10:30" 1000 parseNone none
      (by decide) (by decide) (by decide) (by decide) (by decide)).1 rfl,
   (C8_parse_fallback_verbatim sB "10:30" 1000 parseOct25 none
      (by decide) (by decide) (by decide) (by decide) (by decide)).2.1 _ rfl⟩

/-- Claim C9: an inbound SMS whose body carries an opt-out keyword
cancels any pending retry for the sender — afterwards no active ticket
exists for them — and replies with the opt-out confirmation. -/
theorem C9_optout_cancels_retry (st : P1.SchedState) (lastCall : Option P1.CallDetails)
    (fromN body : String) (placeOk : Bool)
    (hr : P1.SchedReach st)
    (ho : P1.optoutRe (lowerStr (trimStr body)) = true) :
    (P1.smsStep st lastCall fromN body placeOk).1 = (P1.cancelRetry st fromN).1 ∧
    P1.lookupP (P1.smsStep st lastCall fromN body placeOk).1.pending fromN = none ∧
    P1.ownerActive (P1.smsStep st lastCall fromN body placeOk).1 fromN = [] ∧
    (P1.smsStep st lastCall fromN body placeOk).2.1 = P1.optoutReply := by
  have hinv := P1.schedInv_of_reach hr
  simp only [P1.smsStep, ho, if_true]
  exact ⟨trivial, P1.lookupP_cancel_self st fromN, P1.ownerActive_cancel hinv fromN, trivial⟩

/-- Witness for C9: "STOP" from the armed patient clears the ticket. -/
theorem C9_optout_cancels_retry_witness :
    P1.lookupP (P1.smsStep stW none "+15550001111" " STOP " true).1.pending "+15550001111"
      = none ∧
    P1.ownerActive (P1.smsStep stW none "+15550001111" " STOP " true).1 "+15550001111" = [] ∧
    (P1.smsStep stW none "+15550001111" " STOP " true).2.1 = P1.optoutReply :=
  ⟨(C9_optout_cancels_retry stW none "+15550001111" " STOP " true
      (P1.SchedReach.schedule _ _ P1.SchedReach.empty) (by decide)).2.1,
   (C9_optout_cancels_retry stW none "+15550001111" " STOP " true
      (P1.SchedReach.schedule _ _ P1.SchedReach.empty) (by decide)).2.2.1,
   (C9_optout_cancels_retry stW none "+15550001111" " STOP " true
      (P1.SchedReach.schedule _ _ P1.SchedReach.empty) (by decide)).2.2.2⟩

/-- Claim C10: in the walk-in branch with an empty callback identity,
the confirmation SMS is addressed to the clinic phone number itself
(the `callback || clinicPhone` fallback) rather than skipped. -/
theorem C10_walkin_sms_to_clinic (s : SJS.Session) (raw : String) (now : Nat)
    (parse : String → Nat → Option ChronoDate) (ai : Option String)
    (hc : ¬ MAX_CALL_MS < now - s.startedAt)
    (hh : SJS.holdRe (lowerStr (trimStr raw)) = false)
    (hy : SJS.yesRe (lowerStr (trimStr raw)) = false)
    (hn : SJS.noRe (lowerStr (trimStr raw)) = false)
    (ht : SJS.timeRe (lowerStr (trimStr raw)) = false)
    (hw : SJS.walkinRe (lowerStr (trimStr raw)) = true)
    (hcb : s.userRequest.callback = "") :
    (SJS.gatherStep s raw now parse ai).2.effects =
      [Effect.sms s.userRequest.clinicPhone (SJS.walkinSmsBody s.userRequest)] ∧
    (SJS.gatherStep s raw now parse ai).1.status = "walk_in" ∧
    (SJS.gatherStep s raw now parse ai).2.hangup = true := by
  have hcl : SJS.classify (lowerStr (trimStr raw)) = Intent.walkin := by
    simp [SJS.classify, hy, hn, ht, hw]
  have hww : (Intent.walkin = Intent.walkin) = True := by simp
  simp only [SJS.gatherStep, if_neg hc, hh, Bool.false_eq_true, if_false, hcl, hww, if_true,
             hcb]
  refine ⟨?_, trivial, trivial⟩
  simp

/-- Witness for C10: "walk in" with no callback texts the clinic. -/
theorem C10_walkin_sms_to_clinic_witness :
    sNoCb.userRequest.callback = "" ∧
    (SJS.gatherStep sNoCb "walk in" 1000 parseNone none).2.effects =
      [Effect.sms sNoCb.userRequest.clinicPhone (SJS.walkinSmsBody sNoCb.userRequest)] ∧
    (SJS.gatherStep sNoCb "walk in" 1000 parseNone none).1.status = "walk_in" :=
  ⟨by decide,
   (C10_walkin_sms_to_clinic sNoCb "walk in" 1000 parseNone none
      (by decide) (by decide) (by decide) (by decide) (by decide) (by decide) (by decide)).1,
   (C10_walkin_sms_to_clinic sNoCb "walk in" 1000 parseNone none
      (by decide) (by decide) (by decide) (by decide) (by decide) (by decide) (by decide)).2.1⟩

end Clarity
